import Mathlib

/-!
# Verification of the svelte-reactive-table state/synchronization engine

Shallow embedding of the core of `svelte-reactive-table`:

* `ReactiveTableState` (TableState.svelte.ts): raw data, filters, sorts,
  selection, pagination, and the derived pipeline
  `data → applyFilters → applySorting → paginate`.
* `ReactiveTable` (ReactiveTable.svelte.ts): the optimistic CRUD paths
  (`create`'s catch-branch cleanup, `update`'s optimistic apply and its
  catch branch).
* `RealtimeSync` (RealtimeSync.svelte.ts): `detectConflicts` /
  `isConflicting` / `handleRemoteChange` and conflict resolution.
* `VirtualScrollManager` (virtualScroll): `calculateDimensions`,
  `updateVisibleRange`, `generateRenderedItems` and the public operations
  that recompute the window.
* `AdvancedFilterManager.evaluateFilter` with its helpers
  (`compareValues`, `normalizeValue`, `compareNumerically`,
  `fuzzyMatch`, `levenshteinDistance`).

Modelling conventions, stated once:

* JavaScript numbers are IEEE-754 doubles.  Every claim checked here only
  exercises integral values, so numbers are embedded as `Int` (exact), and
  `NaN` is represented as `Option.none` at the coercion points
  (`jsToNumber`).  Comparisons involving `NaN` are `false`, as in JS.
* Host-environment primitives that the code calls but that are not part of
  this repository (date parsing `new Date(string)`, `localeCompare`,
  regular-expression matching) are parameters of the model, collected in a
  `JsEnv` structure; theorems quantify over the environment and concrete
  witnesses instantiate it with a simple total environment.
* JS `Set` iterates in insertion order; it is embedded as a duplicate-free
  `List String` with insertion-ordered add/delete.
* JS objects (rows) are embedded as an `id` field plus an association list
  of the remaining fields; object spread `{...a, ...b}` keeps `a`'s key
  order for overwritten keys and appends `b`-only keys, which `mergeFields`
  reproduces.
* `===` on two distinct arrays or two distinct `Date` objects is reference
  equality and hence `false` for the freshly constructed objects compared
  by this code; `jsStrictEq` returns `false` there.
-/

namespace SRT

/-- A JavaScript runtime value as stored in table rows and filters.
Numbers are embedded as `Int` (see the header note); `vDate` is a `Date`
object carrying its epoch-milliseconds timestamp. -/
inductive Value : Type where
  | vStr (s : String)
  | vNum (n : Int)
  | vBool (b : Bool)
  | vNull
  | vUndefined
  | vDate (t : Int)
  | vArr (xs : List Value)
deriving Repr

mutual

/-- Structural boolean equality on `Value` (used to build `DecidableEq`,
which `deriving` cannot produce for this nested inductive). -/
def Value.beq : Value → Value → Bool
  | .vStr a, .vStr b => a == b
  | .vNum a, .vNum b => a == b
  | .vBool a, .vBool b => a == b
  | .vNull, .vNull => true
  | .vUndefined, .vUndefined => true
  | .vDate a, .vDate b => a == b
  | .vArr xs, .vArr ys => Value.beqList xs ys
  | _, _ => false

/-- Pointwise `Value.beq` on lists. -/
def Value.beqList : List Value → List Value → Bool
  | [], [] => true
  | x :: xs, y :: ys => Value.beq x y && Value.beqList xs ys
  | _, _ => false

end

mutual

theorem Value.eq_of_beq : ∀ (a b : Value), Value.beq a b = true → a = b
  | .vStr _, b, h => by cases b <;> simp_all [Value.beq]
  | .vNum _, b, h => by cases b <;> simp_all [Value.beq]
  | .vBool _, b, h => by cases b <;> simp_all [Value.beq]
  | .vNull, b, h => by cases b <;> simp_all [Value.beq]
  | .vUndefined, b, h => by cases b <;> simp_all [Value.beq]
  | .vDate _, b, h => by cases b <;> simp_all [Value.beq]
  | .vArr xs, b, h => by
      cases b <;> simp_all [Value.beq]
      exact Value.eqList_of_beqList xs _ h

theorem Value.eqList_of_beqList : ∀ (xs ys : List Value),
    Value.beqList xs ys = true → xs = ys
  | [], [], _ => rfl
  | x :: xs, y :: ys, h => by
      simp only [Value.beqList, Bool.and_eq_true] at h
      rw [Value.eq_of_beq x y h.1, Value.eqList_of_beqList xs ys h.2]
  | [], _ :: _, h => by simp [Value.beqList] at h
  | _ :: _, [], h => by simp [Value.beqList] at h

end

mutual

theorem Value.beq_refl : ∀ a : Value, Value.beq a a = true
  | .vStr _ => by simp [Value.beq]
  | .vNum _ => by simp [Value.beq]
  | .vBool _ => by simp [Value.beq]
  | .vNull => by simp [Value.beq]
  | .vUndefined => by simp [Value.beq]
  | .vDate _ => by simp [Value.beq]
  | .vArr xs => by simp [Value.beq]; exact Value.beqList_refl xs

theorem Value.beqList_refl : ∀ xs : List Value, Value.beqList xs xs = true
  | [] => rfl
  | x :: xs => by
      simp only [Value.beqList, Bool.and_eq_true]
      exact ⟨Value.beq_refl x, Value.beqList_refl xs⟩

end

instance : DecidableEq Value := fun a b =>
  if h : Value.beq a b = true then isTrue (Value.eq_of_beq a b h)
  else isFalse (fun he => h (he ▸ Value.beq_refl a))

namespace Value

/-- JS loose equality to `null` (`value == null`): true exactly for
`null` and `undefined`. -/
def looseNull : Value → Bool
  | vNull => true
  | vUndefined => true
  | _ => false

end Value

open Value

/-- Host-environment primitives the embedded code calls; see header note. -/
structure JsEnv : Type where
  /-- Embeds `new Date(s).getTime()`: `none` when the parse yields `NaN`. -/
  dateParse : String → Option Int
  /-- Embeds `String(date)` for a `Date` with the given timestamp. -/
  dateToString : Int → String
  /-- Embeds `a.localeCompare(b)`: negative, zero or positive. -/
  localeCompare : String → String → Int
  /-- Embeds `new RegExp(pat, flags).test(s)`: `none` when the pattern is
  invalid (the JS constructor throws, caught by the caller). -/
  regexTest : String → String → String → Option Bool

/-- A concrete total environment used by closed witnesses and
counterexamples (none of the evaluations below depend on its choices). -/
def env0 : JsEnv where
  dateParse := fun _ => none
  dateToString := fun _ => ""
  localeCompare := fun a b => if a < b then -1 else if b < a then 1 else 0
  regexTest := fun _ _ _ => none

/-- Parse a string as a JS number (`Number(s)`), restricted to the
integral values this development exercises: optional sign, decimal
digits; the empty/whitespace string is `0`; anything else is `NaN`
(`none`).  (JS also accepts floats, hex and exponents, which no claim
here exercises.) -/
def strToNumber (s : String) : Option Int :=
  let t := s.trim
  if t = "" then some 0
  else
    let (sign, digits) :=
      if t.startsWith "-" then ((-1 : Int), t.drop 1)
      else if t.startsWith "+" then ((1 : Int), t.drop 1)
      else ((1 : Int), t)
    if digits ≠ "" ∧ digits.all (·.isDigit) then
      some (sign * (digits.foldl (fun acc c => acc * 10 + (c.toNat - '0'.toNat)) 0 : Nat))
    else none

mutual

/-- Embeds `String(value)` coercion.  Arrays stringify as their elements joined
with `","`, with `null`/`undefined` elements becoming the empty string. -/
def jsToString (env : JsEnv) : Value → String
  | vStr s => s
  | vNum n => toString n
  | vBool b => if b then "true" else "false"
  | vNull => "null"
  | vUndefined => "undefined"
  | vDate t => env.dateToString t
  | vArr xs => String.intercalate "," (jsArrParts env xs)

/-- Element strings for array stringification. -/
def jsArrParts (env : JsEnv) : List Value → List String
  | [] => []
  | v :: vs =>
    (match v with
      | vNull => ""
      | vUndefined => ""
      | v' => jsToString env v') :: jsArrParts env vs

end

/-- Embeds `Number(value)` coercion; `none` is `NaN`. -/
def jsToNumber (env : JsEnv) : Value → Option Int
  | vStr s => strToNumber s
  | vNum n => some n
  | vBool b => some (if b then 1 else 0)
  | vNull => some 0
  | vUndefined => none
  | vDate t => some t
  | vArr xs => strToNumber (jsToString env (vArr xs))

/-- JS strict equality `===`.  Distinct array or `Date` objects compare by
reference, hence `false` for the freshly built objects compared here. -/
def jsStrictEq : Value → Value → Bool
  | vStr a, vStr b => a == b
  | vNum a, vNum b => a == b
  | vBool a, vBool b => a == b
  | vNull, vNull => true
  | vUndefined, vUndefined => true
  | _, _ => false

/-- The primitive a value converts to in a relational comparison
(`ToPrimitive` with the default hint): arrays go through their string
form, `Date` objects through their timestamp. -/
inductive Prim : Type where
  | pStr (s : String)
  | pOther (v : Value)

/-- Embeds `ToPrimitive` for the relational operators. -/
def toPrim (env : JsEnv) : Value → Prim
  | vStr s => .pStr s
  | vArr xs => .pStr (jsToString env (vArr xs))
  | vDate t => .pOther (vNum t)
  | v => .pOther v

/-- Numeric coercion of a primitive (`none` is `NaN`). -/
def primToNumber (env : JsEnv) : Prim → Option Int
  | .pStr s => strToNumber s
  | .pOther v => jsToNumber env v

/-- JS `a < b`: string-vs-string compares lexicographically (code
units), otherwise both operands coerce to numbers and any `NaN` makes
the comparison `false`. -/
def jsLt (env : JsEnv) (a b : Value) : Bool :=
  match toPrim env a, toPrim env b with
  | .pStr x, .pStr y => x < y
  | pa, pb =>
    match primToNumber env pa, primToNumber env pb with
    | some x, some y => x < y
    | _, _ => false

/-- Embeds `Array.prototype.includes` (SameValueZero; with no `NaN` values in
the model this is `===`). -/
def jsIncludes (xs : List Value) (v : Value) : Bool :=
  xs.any (fun x => jsStrictEq x v)

/-! ## Rows -/

/-- A table row (`DataRow`): the mandatory string `id` plus the remaining
fields as an association list (JS objects have unique keys; insertion
order is the list order). -/
structure Row : Type where
  id : String
  fields : List (String × Value)
deriving DecidableEq, Repr

/-- Embeds `row[column]`: property access; a missing property is `undefined`. -/
def rowGet (r : Row) (c : String) : Value :=
  if c = "id" then .vStr r.id
  else ((r.fields.find? (fun p => p.1 = c)).map Prod.snd).getD .vUndefined

/-- A `Partial<T>` argument: possibly an `id`, plus other fields. -/
structure RowPatch : Type where
  id : Option String
  fields : List (String × Value)
deriving DecidableEq, Repr

/-- Object spread `{...a, ...b}` on the non-`id` fields: keys of `a` keep
their position (values overridden by `b` where present), keys only in `b`
are appended in `b`'s order. -/
def mergeFields (a b : List (String × Value)) : List (String × Value) :=
  (a.map (fun p => (p.1, ((b.find? (fun q => q.1 = p.1)).map Prod.snd).getD p.2)))
    ++ b.filter (fun q => ¬ (a.any (fun p => p.1 = q.1)))

/-- Embeds `{...row, ...patch}` producing a row. -/
def mergeRow (r : Row) (u : RowPatch) : Row :=
  { id := u.id.getD r.id, fields := mergeFields r.fields u.fields }

/-- View a full row as the `Partial<T>` it is passed as (e.g.
`updateRow(id, optimisticRow)`). -/
def Row.asPatch (r : Row) : RowPatch :=
  { id := some r.id, fields := r.fields }

/-! ## Table filters and sorts -/

/-- Embeds `TableFilter { column, operator, value }`.  The operator is kept as a
raw string so that unrecognized operators are expressible (claim C5). -/
structure TableFilter : Type where
  column : String
  operator : String
  value : Value
deriving DecidableEq, Repr

/-- Embeds `TableSort { column, direction }`; `direction` is `"asc"` or
`"desc"` in the source. -/
structure TableSort : Type where
  column : String
  direction : String
deriving DecidableEq, Repr

/-! ## ReactiveTableState (TableState.svelte.ts)

The embedded state keeps every field the embedded operations read or
write: `data`, `loading`, `error`, `connected`, `filters`, `sorts`,
`selectedRows`, `currentPage`, `pageSize`.  The remaining sub-states of
the source class (editing, column layout, UI focus/hover, virtual-scroll
sub-state) are not touched by any operation modelled here and are
omitted from the structure. -/

structure TableState : Type where
  data : List Row
  loading : Bool
  error : Option String
  connected : Bool
  filters : List TableFilter
  sorts : List TableSort
  /-- Embeds `Set<string>` in insertion order, duplicate-free. -/
  selectedRows : List String
  currentPage : Nat
  pageSize : Nat
deriving DecidableEq, Repr

namespace TableState

/-- The constructor: `pageSize = options.pageSize || 20` (JS `||`: the
falsy values `0`/`undefined` fall back to 20). -/
def mk0 (pageSizeOpt : Option Nat) : TableState :=
  { data := []
    loading := false
    error := none
    connected := false
    filters := []
    sorts := []
    selectedRows := []
    currentPage := 0
    pageSize := match pageSizeOpt with
      | some n => if n = 0 then 20 else n
      | none => 20 }

/-! ### Filtering (`matchesFilter`, `applyFilters`) -/

/-- Embeds `matchesFilter(value, filter)`: the operator switch of
`ReactiveTableState`.  Note the source's `default: return true`. -/
def matchesFilter (env : JsEnv) (value : Value) (filter : TableFilter) : Bool :=
  let filterValue := filter.value
  if filter.operator = "equals" then jsStrictEq value filterValue
  else if filter.operator = "not_equals" then ¬ jsStrictEq value filterValue
  else if filter.operator = "contains" then
    ((jsToString env value).toLower).containsSubstr ((jsToString env filterValue).toLower)
  else if filter.operator = "not_contains" then
    ¬ ((jsToString env value).toLower).containsSubstr ((jsToString env filterValue).toLower)
  else if filter.operator = "starts_with" then
    ((jsToString env value).toLower).startsWith ((jsToString env filterValue).toLower)
  else if filter.operator = "ends_with" then
    ((jsToString env value).toLower).endsWith ((jsToString env filterValue).toLower)
  else if filter.operator = "greater_than" then
    match jsToNumber env value, jsToNumber env filterValue with
    | some a, some b => a > b
    | _, _ => false
  else if filter.operator = "less_than" then
    match jsToNumber env value, jsToNumber env filterValue with
    | some a, some b => a < b
    | _, _ => false
  else if filter.operator = "greater_equal" then
    match jsToNumber env value, jsToNumber env filterValue with
    | some a, some b => a ≥ b
    | _, _ => false
  else if filter.operator = "less_equal" then
    match jsToNumber env value, jsToNumber env filterValue with
    | some a, some b => a ≤ b
    | _, _ => false
  else if filter.operator = "in" then
    match filterValue with
    | .vArr xs => jsIncludes xs value
    | _ => false
  else if filter.operator = "not_in" then
    match filterValue with
    | .vArr xs => ¬ jsIncludes xs value
    | _ => false
  else if filter.operator = "is_null" then value.looseNull
  else if filter.operator = "is_not_null" then ¬ value.looseNull
  else true

/-- Embeds `applyFilters(data)`: keep the rows matching every filter on its
column's cell value. -/
def applyFilters (env : JsEnv) (filters : List TableFilter) (data : List Row) :
    List Row :=
  data.filter (fun row =>
    filters.all (fun filter => matchesFilter env (rowGet row filter.column) filter))

/-- Embeds `_filteredData`: the raw data when no filter is set, else the
filtered data. -/
def filteredData (env : JsEnv) (s : TableState) : List Row :=
  if s.filters.length = 0 then s.data else applyFilters env s.filters s.data

/-! ### Sorting (`applySorting`) -/

/-- The comparator body of `applySorting`: walk the sort descriptions,
return the first nonzero direction-adjusted comparison. -/
def sortCmp (env : JsEnv) : List TableSort → Row → Row → Int
  | [], _, _ => 0
  | srt :: rest, a, b =>
    let aValue := rowGet a srt.column
    let bValue := rowGet b srt.column
    let comparison : Int :=
      if jsLt env aValue bValue then -1
      else if jsLt env bValue aValue then 1
      else 0
    if comparison ≠ 0 then
      (if srt.direction = "asc" then comparison else -comparison)
    else sortCmp env rest a b

/-- Embeds `applySorting(data)`: a stable sort of a copy by `sortCmp` (JS
`Array.prototype.sort` is stable). -/
def applySorting (env : JsEnv) (sorts : List TableSort) (data : List Row) :
    List Row :=
  if sorts.length = 0 then data
  else data.mergeSort (fun a b => sortCmp env sorts a b ≤ 0)

/-- Embeds `_sortedData`. -/
def sortedData (env : JsEnv) (s : TableState) : List Row :=
  if s.sorts.length = 0 then s.filteredData env
  else applySorting env s.sorts (s.filteredData env)

/-! ### Pagination -/

/-- Embeds `Math.ceil(a / b)` on the naturals this code divides. -/
def ceilDivNat (a b : Nat) : Nat := (a + b - 1) / b

/-- Embeds `_totalPages = Math.ceil(filteredData.length / pageSize)`. -/
def totalPages (env : JsEnv) (s : TableState) : Nat :=
  ceilDivNat (s.filteredData env).length s.pageSize

/-- Embeds `_totalItems`. -/
def totalItems (env : JsEnv) (s : TableState) : Nat :=
  (s.filteredData env).length

/-- Embeds `_paginatedData = sortedData.slice(currentPage*pageSize, start+pageSize)`. -/
def paginatedData (env : JsEnv) (s : TableState) : List Row :=
  ((s.sortedData env).drop (s.currentPage * s.pageSize)).take s.pageSize

/-- Embeds `_hasNextPage = currentPage < totalPages - 1` (JS arithmetic on
numbers; embedded over `Int` so `totalPages - 1` is exact). -/
def hasNextPage (env : JsEnv) (s : TableState) : Bool :=
  (s.currentPage : Int) < (s.totalPages env : Int) - 1

/-- Embeds `_hasPreviousPage = currentPage > 0`. -/
def hasPreviousPage (s : TableState) : Bool :=
  s.currentPage > 0

/-! ### Data manipulation methods -/

/-- Embeds `setData(newData)`. -/
def setData (s : TableState) (newData : List Row) : TableState :=
  { s with data := newData }

/-- Embeds `addRow(row)`. -/
def addRow (s : TableState) (row : Row) : TableState :=
  { s with data := s.data ++ [row] }

/-- Embeds `addRows(rows)`. -/
def addRows (s : TableState) (rows : List Row) : TableState :=
  { s with data := s.data ++ rows }

/-- Embeds `updateRow(id, updates)`: find the first row with the id; if found,
replace it by the spread-merge of the partial into it; else do nothing. -/
def updateRow (s : TableState) (id : String) (updates : RowPatch) : TableState :=
  match s.data.findIdx? (fun row => row.id = id) with
  | some index =>
    { s with data := s.data.set index (mergeRow (s.data.getD index ⟨"", []⟩) updates) }
  | none => s

/-- Embeds `removeRow(id)`. -/
def removeRow (s : TableState) (id : String) : TableState :=
  { s with data := s.data.filter (fun row => row.id ≠ id) }

/-- Embeds `replaceData(newData)`. -/
def replaceData (s : TableState) (newData : List Row) : TableState :=
  { s with data := newData }

/-- Embeds `hasRow(id)`. -/
def hasRow (s : TableState) (id : String) : Bool :=
  s.data.any (fun row => row.id = id)

/-- Embeds `getRow(id)`. -/
def getRow (s : TableState) (id : String) : Option Row :=
  s.data.find? (fun row => row.id = id)

/-! ### Selection methods (JS `Set` in insertion order) -/

/-- Embeds `Set.add`: append if absent. -/
def selAdd (l : List String) (id : String) : List String :=
  if id ∈ l then l else l ++ [id]

/-- Embeds `selectRow(id)`. -/
def selectRow (s : TableState) (id : String) : TableState :=
  { s with selectedRows := selAdd s.selectedRows id }

/-- Embeds `deselectRow(id)`. -/
def deselectRow (s : TableState) (id : String) : TableState :=
  { s with selectedRows := s.selectedRows.filter (fun x => x ≠ id) }

/-- Embeds `selectRows(ids) = new Set(ids)` (dedup, first occurrence kept). -/
def selectRows (s : TableState) (ids : List String) : TableState :=
  { s with selectedRows := ids.foldl selAdd [] }

/-- Embeds `selectAll()`. -/
def selectAll (s : TableState) : TableState :=
  { s with selectedRows := (s.data.map Row.id).foldl selAdd [] }

/-- Embeds `clearSelection()`. -/
def clearSelection (s : TableState) : TableState :=
  { s with selectedRows := [] }

/-- Embeds `toggleRowSelection(id)`. -/
def toggleRowSelection (s : TableState) (id : String) : TableState :=
  if id ∈ s.selectedRows then s.deselectRow id else s.selectRow id

/-! ### Pagination methods -/

/-- Embeds `setPage(page)`: guard `page >= 0 && page < totalPages`, else no-op.
The argument is an `Int` since callers may pass any number. -/
def setPage (env : JsEnv) (s : TableState) (page : Int) : TableState :=
  if 0 ≤ page ∧ page < (s.totalPages env : Int) then
    { s with currentPage := page.toNat }
  else s

/-- Embeds `setPageSize(size)`: guard `size > 0`; resets to page 0. -/
def setPageSize (s : TableState) (size : Int) : TableState :=
  if 0 < size then { s with pageSize := size.toNat, currentPage := 0 } else s

/-- Embeds `nextPage()`. -/
def nextPage (env : JsEnv) (s : TableState) : TableState :=
  if s.hasNextPage env then { s with currentPage := s.currentPage + 1 } else s

/-- Embeds `previousPage()`. -/
def previousPage (s : TableState) : TableState :=
  if s.hasPreviousPage then { s with currentPage := s.currentPage - 1 } else s

/-- Embeds `goToFirstPage()`. -/
def goToFirstPage (s : TableState) : TableState :=
  { s with currentPage := 0 }

/-- Embeds `goToLastPage() = max(0, totalPages - 1)` (exact over `Int`, then a
natural number again). -/
def goToLastPage (env : JsEnv) (s : TableState) : TableState :=
  { s with currentPage := (max 0 ((s.totalPages env : Int) - 1)).toNat }

/-! ### Filter methods -/

/-- Embeds `addFilter(filter)`: drop filters on the same column, append, reset
to page 0. -/
def addFilter (s : TableState) (filter : TableFilter) : TableState :=
  { s with
    filters := s.filters.filter (fun f => f.column ≠ filter.column) ++ [filter]
    currentPage := 0 }

/-- Embeds `removeFilter(index)`: `filters.filter((_, i) => i !== index)`,
reset to page 0. -/
def removeFilter (s : TableState) (index : Nat) : TableState :=
  { s with
    filters := (s.filters.enum.filter (fun p => p.1 ≠ index)).map Prod.snd
    currentPage := 0 }

/-- Embeds `updateFilter(index, filter)`: only when `newFilters[index]` is a
(truthy) element, i.e. the index is in range. -/
def updateFilter (s : TableState) (index : Nat) (filter : TableFilter) :
    TableState :=
  if index < s.filters.length then
    { s with filters := s.filters.set index filter, currentPage := 0 }
  else s

/-- Embeds `clearFilters()`. -/
def clearFilters (s : TableState) : TableState :=
  { s with filters := [], currentPage := 0 }

/-- Embeds `setFilters(newFilters)`. -/
def setFilters (s : TableState) (newFilters : List TableFilter) : TableState :=
  { s with filters := newFilters, currentPage := 0 }

/-! ### Sort methods -/

/-- Embeds `addSort(sort)`: single-column semantics, replaces the list. -/
def addSort (s : TableState) (sort : TableSort) : TableState :=
  { s with sorts := [sort] }

/-- Embeds `removeSort(columnId)`. -/
def removeSort (s : TableState) (columnId : String) : TableState :=
  { s with sorts := s.sorts.filter (fun t => t.column ≠ columnId) }

/-- Embeds `updateSort(columnId, direction)`. -/
def updateSort (s : TableState) (columnId : String) (direction : String) :
    TableState :=
  match s.sorts.findIdx? (fun t => t.column = columnId) with
  | some i =>
    { s with sorts := s.sorts.set i { (s.sorts.getD i ⟨"", ""⟩) with direction := direction } }
  | none => s.addSort { column := columnId, direction := direction }

/-- Embeds `clearSorts()`. -/
def clearSorts (s : TableState) : TableState :=
  { s with sorts := [] }

/-- Embeds `setSorts(newSorts)`. -/
def setSorts (s : TableState) (newSorts : List TableSort) : TableState :=
  { s with sorts := newSorts }

end TableState

/-! ## ReactiveTable orchestrator CRUD paths (ReactiveTable.svelte.ts)

The async CRUD methods are embedded as pure functions of the pre-state
and the adapter outcome (`Except String Row`), returning the propagated
result together with the post-state.  The `syncing`/`loading` flags and
`state.error` are not written by these two methods in the source. -/

/-- Embeds `ReactiveTable.update(id, data)`.

Try-block: capture `originalRow = getRow(id)`; if `optimistic` is on and
the row exists, apply `updateRow(id, {...originalRow, ...data})`
speculatively; then await the adapter.  On success, `updateRow(id,
updatedRow)` and return the row.  On failure the catch branch re-reads
`getRow(id)` but its body — which the source comments say "would need to
restore original data" — is empty, so the state is left as after the
optimistic apply, and the error is re-thrown. -/
def orchestratorUpdate (optimistic : Bool) (s : TableState) (id : String)
    (data : RowPatch) (adapterResult : Except String Row) :
    Except String Row × TableState :=
  let originalRow := s.getRow id
  let s1 :=
    if optimistic then
      match originalRow with
      | some r => s.updateRow id (mergeRow r data).asPatch
      | none => s
    else s
  match adapterResult with
  | .ok updatedRow => (.ok updatedRow, s1.updateRow id updatedRow.asPatch)
  | .error e => (.error e, s1)

/-- The catch branch of `ReactiveTable.create`: when `optimistic` is on,
iterate over a snapshot of `state.data` and `removeRow` every row whose
id starts with `"temp_"`; when it is off, do nothing.  `s` is the state
at the moment the adapter rejection is caught. -/
def createCatchCleanup (optimistic : Bool) (s : TableState) : TableState :=
  if optimistic then
    s.data.foldl
      (fun st row => if row.id.startsWith "temp_" then st.removeRow row.id else st)
      s
  else s

/-! ## RealtimeSync (RealtimeSync.svelte.ts)

`ConflictEvent`'s `id` and `timestamp` fields come from `Date.now()` and
`Math.random()` (host clock/PRNG) and are read by no claim; they are
omitted here.  Of `OptimisticUpdate` only the fields this code path
reads (`type`, `data`) are kept, and of the incoming `DataChangeEvent`
only `type` and `data` (the fields `handleRemoteChange`,
`detectConflicts` and `isConflicting` consult). -/

/-- A pending optimistic update (the fields `detectConflicts` reads). -/
structure OptimisticUpdate : Type where
  type : String
  data : Row
deriving DecidableEq, Repr

/-- An incoming remote change event (the fields this path reads). -/
structure RemoteEvent : Type where
  type : String
  data : Option Row
deriving DecidableEq, Repr

/-- A detected conflict (without the host-generated `id`/`timestamp`). -/
structure ConflictEvent : Type where
  type : String
  localData : Row
  remoteData : Row
  resolved : Bool
deriving DecidableEq, Repr

/-- Embeds `String(remoteEvent.data?.id)`: when `data` is absent the optional
chain yields `undefined`, which stringifies to `"undefined"`. -/
def remoteIdString : Option Row → String
  | some r => r.id
  | none => "undefined"

/-- Embeds `isConflicting(localUpdate, remoteEvent)`: same stringified record
id, and both the local update and the remote event are mutating
(`update`/`delete`). -/
def isConflicting (localUpdate : OptimisticUpdate) (remoteEvent : RemoteEvent) :
    Bool :=
  (localUpdate.data.id = remoteIdString remoteEvent.data) &&
  (localUpdate.type = "update" || localUpdate.type = "delete") &&
  (remoteEvent.type = "update" || remoteEvent.type = "delete")

/-- Embeds `detectConflicts(remoteEvent)`: one `ConflictEvent` per conflicting
pending update, in pending order; `remoteData` falls back to the local
data when the event carries none (`remoteEvent.data || update.data`). -/
def detectConflicts (pendingUpdates : List OptimisticUpdate)
    (remoteEvent : RemoteEvent) : List ConflictEvent :=
  (pendingUpdates.filter (fun u => isConflicting u remoteEvent)).map (fun u =>
    { type := remoteEvent.type
      localData := u.data
      remoteData := remoteEvent.data.getD u.data
      resolved := false })

/-- The slice of `SyncState` conflict handling touches. -/
structure SyncSlice : Type where
  pendingUpdates : List OptimisticUpdate
  conflicts : List ConflictEvent
deriving DecidableEq, Repr

/-- Embeds `removeOptimisticUpdate(id)`: splice out the first pending update
with the given stringified id. -/
def removeOptimisticUpdate (pending : List OptimisticUpdate) (id : String) :
    List OptimisticUpdate :=
  match pending.findIdx? (fun u => u.data.id = id) with
  | some index => pending.eraseIdx index
  | none => pending

/-- JS property assignment `obj[k] = v` on a field list: overwrite in
place if the key exists, else append. -/
def setField (fs : List (String × Value)) (k : String) (v : Value) :
    List (String × Value) :=
  if fs.any (fun p => p.1 = k) then
    fs.map (fun p => if p.1 = k then (k, v) else p)
  else fs ++ [(k, v)]

/-- Embeds `mergeChanges(localData, remoteData)`: start from `{...remoteData}`;
for each non-`id` local entry whose remote value is strictly `undefined`
or `null`, keep the local value.  The source wraps this in `try/catch`
but the body cannot throw, so the result is always produced. -/
def mergeChanges (localData remoteData : Row) : Option Row :=
  some (localData.fields.foldl
    (fun merged kv =>
      let remoteValue := rowGet remoteData kv.1
      if remoteValue = .vUndefined ∨ remoteValue = .vNull then
        { merged with fields := setField merged.fields kv.1 kv.2 }
      else merged)
    remoteData)

/-- One iteration of the `resolveConflicts` loop for one conflict, per
strategy.  The `applyRemoteChange` emission (an adapter `emit`) leaves
the sync state untouched and is not part of the slice. -/
def resolveOne (strategy : String) (st : SyncSlice) (c : ConflictEvent) :
    SyncSlice :=
  if strategy = "last-write-wins" then
    { st with pendingUpdates := removeOptimisticUpdate st.pendingUpdates c.localData.id }
  else if strategy = "first-write-wins" then st
  else if strategy = "manual" then
    { st with conflicts := st.conflicts ++ [c] }
  else if strategy = "merge" then
    match mergeChanges c.localData c.remoteData with
    | some _ =>
      { st with pendingUpdates := removeOptimisticUpdate st.pendingUpdates c.localData.id }
    | none => { st with conflicts := st.conflicts ++ [c] }
  else st

/-- Embeds `resolveConflicts(conflicts, remoteEvent)`. -/
def resolveConflicts (strategy : String) (st : SyncSlice)
    (conflictList : List ConflictEvent) : SyncSlice :=
  conflictList.foldl (resolveOne strategy) st

/-- What `handleRemoteChange` did with an event: ran the configured
resolution over the detected conflicts, or applied the change directly. -/
inductive SyncAction : Type where
  | resolved (conflictsDetected : List ConflictEvent) (after : SyncSlice)
  | appliedDirectly
deriving DecidableEq, Repr

/-- Embeds `handleRemoteChange(event)`: detect conflicts against the pending
optimistic updates; if any, resolve them per strategy, else apply the
remote change directly. -/
def handleRemoteChange (strategy : String) (st : SyncSlice)
    (event : RemoteEvent) : SyncAction :=
  let conflicts := detectConflicts st.pendingUpdates event
  if conflicts.length > 0 then
    .resolved conflicts (resolveConflicts strategy st conflicts)
  else .appliedDirectly

/-! ## VirtualScrollManager (virtualScroll utilities)

Pixel quantities are embedded as `Int` (the claims exercise integral
pixel values; `offsetTop` can genuinely go negative in dynamic mode, so
`Nat` would be unfaithful).  `Math.floor(a / b)` on integers is `Int.fdiv`
and `Math.ceil(a / b)` is its ceiling counterpart. -/

/-- Embeds `Math.ceil(a / b)` for integral `a` and positive `b`. -/
def ceilDivInt (a b : Int) : Int := -(Int.fdiv (-a) b)

/-- Embeds `VirtualScrollConfig` (constructor defaults in `vsDefaultConfig`). -/
structure VSConfig : Type where
  rowHeight : Int
  containerHeight : Int
  buffer : Int
  overscan : Bool
  overscanCount : Int
  dynamicHeight : Bool
  minRowHeight : Int
  maxRowHeight : Int
  scrollThreshold : Int
deriving DecidableEq, Repr

/-- The constructor's default configuration. -/
def vsDefaultConfig : VSConfig :=
  { rowHeight := 48
    containerHeight := 400
    buffer := 5
    overscan := true
    overscanCount := 2
    dynamicHeight := false
    minRowHeight := 32
    maxRowHeight := 200
    scrollThreshold := 10 }

/-- Embeds `VirtualScrollState`; `rowHeightCache` is the `Map<number, number>`
as an association list. -/
structure VSState : Type where
  scrollTop : Int
  startIndex : Int
  endIndex : Int
  totalItems : Int
  visibleItems : Int
  offsetTop : Int
  offsetBottom : Int
  totalHeight : Int
  renderedItems : List Int
  rowHeightCache : List (Int × Int)
deriving DecidableEq, Repr

/-- The constructor's initial state. -/
def vsInitialState : VSState :=
  { scrollTop := 0, startIndex := 0, endIndex := 0, totalItems := 0
    visibleItems := 0, offsetTop := 0, offsetBottom := 0, totalHeight := 0
    renderedItems := [], rowHeightCache := [] }

/-- Embeds `rowHeightCache.get(i)`. -/
def cacheGet (cache : List (Int × Int)) (i : Int) : Option Int :=
  (cache.find? (fun p => p.1 = i)).map Prod.snd

/-- Embeds `Map.set(i, h)`. -/
def cacheSet (cache : List (Int × Int)) (i h : Int) : List (Int × Int) :=
  if cache.any (fun p => p.1 = i) then
    cache.map (fun p => if p.1 = i then (i, h) else p)
  else cache ++ [(i, h)]

/-- Embeds `rowHeightCache.get(i) || config.rowHeight` (JS `||`: a cached `0`
also falls back to the configured row height). -/
def heightAt (cache : List (Int × Int)) (rowHeight : Int) (i : Int) : Int :=
  match cacheGet cache i with
  | some h => if h = 0 then rowHeight else h
  | none => rowHeight

/-- The loop `for (i = lo; i < hi; i++) acc += heightAt i`. -/
def heightsBetween (cache : List (Int × Int)) (rowHeight : Int) (lo hi : Int) :
    Int :=
  ((List.range (hi - lo).toNat).map (fun j => heightAt cache rowHeight (lo + Int.ofNat j))).sum

/-- Sum of `heightAt` over indices `0 ≤ i < n`. -/
def heightsUpTo (cache : List (Int × Int)) (rowHeight : Int) (n : Int) : Int :=
  heightsBetween cache rowHeight 0 n

/-- Embeds `calculateDimensions()`: recompute `totalHeight` (per mode) and
`visibleItems = Math.ceil(containerHeight / rowHeight)`. -/
def calculateDimensions (cfg : VSConfig) (st : VSState) : VSState :=
  let totalHeight :=
    if cfg.dynamicHeight then heightsUpTo st.rowHeightCache cfg.rowHeight st.totalItems
    else st.totalItems * cfg.rowHeight
  { st with
    totalHeight := totalHeight
    visibleItems := ceilDivInt cfg.containerHeight cfg.rowHeight }

/-- The `while (left < right)` binary search of
`findStartIndexForDynamicHeight`. -/
def findStartLoop (cache : List (Int × Int)) (rowHeight scrollTop : Int)
    (left right : Int) : Int :=
  if h : left < right then
    let mid := Int.fdiv (left + right) 2
    let accumulatedHeight := heightsUpTo cache rowHeight (mid + 1)
    if accumulatedHeight < scrollTop then
      findStartLoop cache rowHeight scrollTop (mid + 1) right
    else
      findStartLoop cache rowHeight scrollTop left mid
  else left
termination_by (right - left).toNat
decreasing_by
  all_goals
    have _hq := Int.fdiv_add_fmod (left + right) 2
    have _hm := Int.fmod_eq_emod (left + right) (by norm_num : (0:Int) ≤ 2)
    have _hm1 := Int.emod_nonneg (left + right) (by norm_num : (2:Int) ≠ 0)
    have _hm2 := Int.emod_lt_of_pos (left + right) (by norm_num : (0:Int) < 2)
    omega

/-- Embeds `findStartIndexForDynamicHeight()`. -/
def findStartIndexForDynamicHeight (cache : List (Int × Int))
    (rowHeight scrollTop totalItems : Int) : Int :=
  findStartLoop cache rowHeight scrollTop 0 (totalItems - 1)

/-- Embeds `generateRenderedItems()`: the indices `startIndex, …, endIndex-1`
(empty when `endIndex ≤ startIndex`). -/
def generateRenderedItems (startIndex endIndex : Int) : List Int :=
  (List.range (endIndex - startIndex).toNat).map (fun j => startIndex + Int.ofNat j)

/-- Embeds `updateVisibleRange()`: recompute
`startIndex/endIndex/offsetTop/offsetBottom/renderedItems` from the
current scroll position, per mode. -/
def updateVisibleRange (cfg : VSConfig) (st : VSState) : VSState :=
  if st.totalItems = 0 then
    { st with startIndex := 0, endIndex := 0, offsetTop := 0, offsetBottom := 0
              renderedItems := [] }
  else
    let startIndex :=
      if cfg.dynamicHeight then
        findStartIndexForDynamicHeight st.rowHeightCache cfg.rowHeight
          st.scrollTop st.totalItems
      else Int.fdiv st.scrollTop cfg.rowHeight
    let offsetTop :=
      if cfg.dynamicHeight then heightsUpTo st.rowHeightCache cfg.rowHeight startIndex
      else startIndex * cfg.rowHeight
    let bufferedStartIndex := max 0 (startIndex - cfg.buffer)
    let endIndex0 := startIndex + st.visibleItems + cfg.buffer
    let endIndex1 := if cfg.overscan then endIndex0 + cfg.overscanCount else endIndex0
    let endIndex := min st.totalItems endIndex1
    let offsetBottom :=
      if cfg.dynamicHeight then
        heightsBetween st.rowHeightCache cfg.rowHeight endIndex st.totalItems
      else (st.totalItems - endIndex) * cfg.rowHeight
    { st with
      startIndex := bufferedStartIndex
      endIndex := endIndex
      offsetTop := offsetTop -
        (if bufferedStartIndex ≠ startIndex
         then (startIndex - bufferedStartIndex) * cfg.rowHeight else 0)
      offsetBottom := offsetBottom
      renderedItems := generateRenderedItems bufferedStartIndex endIndex }

/-- The whole manager: configuration, data, and the window state. -/
structure VSManager : Type where
  config : VSConfig
  data : List Row
  state : VSState
deriving DecidableEq, Repr

/-- Embeds `new VirtualScrollManager(config)` with an explicit configuration. -/
def vsNew (cfg : VSConfig) : VSManager :=
  { config := cfg, data := [], state := vsInitialState }

/-- Embeds `initialize(data)`. -/
def vsInitialize (m : VSManager) (data : List Row) : VSManager :=
  let st := { m.state with totalItems := (data.length : Int) }
  { m with data := data
           state := updateVisibleRange m.config (calculateDimensions m.config st) }

/-- Embeds `updateData(data)`: the height cache is cleared when the length
changed by more than 100. -/
def vsUpdateData (m : VSManager) (data : List Row) : VSManager :=
  let oldLength := (m.data.length : Int)
  let st0 := { m.state with totalItems := (data.length : Int) }
  let st1 :=
    if 100 < |(data.length : Int) - oldLength| then
      { st0 with rowHeightCache := [] }
    else st0
  { m with data := data
           state := updateVisibleRange m.config (calculateDimensions m.config st1) }

/-- Embeds `handleScroll(scrollTop)`: ignored below the threshold; no
dimension recomputation on this path. -/
def vsHandleScroll (m : VSManager) (scrollTop : Int) : VSManager :=
  if |scrollTop - m.state.scrollTop| < m.config.scrollThreshold then m
  else
    { m with state := updateVisibleRange m.config { m.state with scrollTop := scrollTop } }

/-- Embeds `updateContainerHeight(height)`. -/
def vsUpdateContainerHeight (m : VSManager) (height : Int) : VSManager :=
  let cfg := { m.config with containerHeight := height }
  { m with config := cfg
           state := updateVisibleRange cfg (calculateDimensions cfg m.state) }

/-- Embeds `setRowHeight(index, height)` (dynamic mode only): clamp to the
configured bounds, skip insignificant changes (`currentHeight &&` is JS
truthiness: a cached `0` does not short-circuit). -/
def vsSetRowHeight (m : VSManager) (index height : Int) : VSManager :=
  if m.config.dynamicHeight then
    let clampedHeight := max m.config.minRowHeight (min m.config.maxRowHeight height)
    let skip : Bool :=
      match cacheGet m.state.rowHeightCache index with
      | some currentHeight => currentHeight ≠ 0 ∧ |currentHeight - clampedHeight| < 2
      | none => false
    if skip then m
    else
      let st := { m.state with
        rowHeightCache := cacheSet m.state.rowHeightCache index clampedHeight }
      { m with state := updateVisibleRange m.config (calculateDimensions m.config st) }
  else m

/-- A `Partial<VirtualScrollConfig>` for `updateConfig`. -/
structure VSConfigPatch : Type where
  rowHeight : Option Int := none
  containerHeight : Option Int := none
  buffer : Option Int := none
  overscan : Option Bool := none
  overscanCount : Option Int := none
  dynamicHeight : Option Bool := none
  minRowHeight : Option Int := none
  maxRowHeight : Option Int := none
  scrollThreshold : Option Int := none
deriving Repr

/-- Embeds `{...config, ...updates}`. -/
def vsMergeConfig (cfg : VSConfig) (u : VSConfigPatch) : VSConfig :=
  { rowHeight := u.rowHeight.getD cfg.rowHeight
    containerHeight := u.containerHeight.getD cfg.containerHeight
    buffer := u.buffer.getD cfg.buffer
    overscan := u.overscan.getD cfg.overscan
    overscanCount := u.overscanCount.getD cfg.overscanCount
    dynamicHeight := u.dynamicHeight.getD cfg.dynamicHeight
    minRowHeight := u.minRowHeight.getD cfg.minRowHeight
    maxRowHeight := u.maxRowHeight.getD cfg.maxRowHeight
    scrollThreshold := u.scrollThreshold.getD cfg.scrollThreshold }

/-- Embeds `updateConfig(updates)`. -/
def vsUpdateConfig (m : VSManager) (updates : VSConfigPatch) : VSManager :=
  let cfg := vsMergeConfig m.config updates
  { m with config := cfg
           state := updateVisibleRange cfg (calculateDimensions cfg m.state) }

/-- Embeds `reset()`. -/
def vsReset (m : VSManager) : VSManager :=
  let st := { m.state with scrollTop := 0, rowHeightCache := [] }
  { m with state := updateVisibleRange m.config (calculateDimensions m.config st) }

/-! ## AdvancedFilterManager (advancedFilter utilities)

Only the `evaluateFilter` chain that claim C5 cites is embedded:
`evaluateFilter`, `compareValues`, `normalizeValue`,
`compareNumerically`, `fuzzyMatch`, `levenshteinDistance`,
`getFieldValue`.  The `fuzzyThreshold` double is embedded as an exact
rational. -/

/-- The `AdvancedFilterConfig` fields this chain reads (the constructor
defaults are in `afDefaultConfig`). -/
structure AFConfig : Type where
  caseSensitive : Bool
  fuzzyMatching : Bool
  fuzzyThreshold : Rat
  regexSupport : Bool
  dateRangeParsing : Bool
  numericalRangeParsing : Bool

/-- The constructor defaults (minus `defaultTextOperator`, which this
chain never reads). -/
def afDefaultConfig : AFConfig :=
  { caseSensitive := false
    fuzzyMatching := false
    fuzzyThreshold := 8 / 10
    regexSupport := false
    dateRangeParsing := true
    numericalRangeParsing := true }

/-- A canonical non-negative integer property key (`"0"`, `"17"`, …):
JS array/string indexing `obj["01"]` names an absent property. -/
def strToCanonIndex (k : String) : Option Nat :=
  if k ≠ "" ∧ k.all (·.isDigit) ∧ (k = "0" ∨ ¬ k.startsWith "0") then
    some (k.foldl (fun acc c => acc * 10 + (c.toNat - '0'.toNat)) 0)
  else none

/-- One step of the optional-chain walk `obj?.[key]`: element/`length`
access on arrays and strings (JS indexes strings by UTF-16 unit, embedded
per character); any other receiver — primitives have no own properties,
`null`/`undefined` short-circuit — yields `undefined`. -/
def valueIndex (v : Value) (k : String) : Value :=
  match v with
  | .vArr xs =>
    if k = "length" then .vNum xs.length
    else match strToCanonIndex k with
      | some i => (xs.get? i).getD .vUndefined
      | none => .vUndefined
  | .vStr s =>
    if k = "length" then .vNum s.length
    else match strToCanonIndex k with
      | some i => ((s.data.get? i).map (fun c => Value.vStr (String.singleton c))).getD .vUndefined
      | none => .vUndefined
  | _ => .vUndefined

/-- Embeds `getFieldValue(row, field)`:
`field.split('.').reduce((obj, key) => obj?.[key], row)`. -/
def getFieldValue (row : Row) (field : String) : Value :=
  match field.splitOn "." with
  | [] => .vUndefined
  | k :: ks => ks.foldl valueIndex (rowGet row k)

/-- Embeds `levenshteinDistance(str1, str2)`: the source fills the standard DP
matrix; embedded as the recurrence the matrix tabulates. -/
def levenshteinDistance : List Char → List Char → Nat
  | [], ys => ys.length
  | xs, [] => xs.length
  | x :: xs, y :: ys =>
    if x = y then levenshteinDistance xs ys
    else 1 + min (levenshteinDistance xs ys)
            (min (levenshteinDistance (x :: xs) ys) (levenshteinDistance xs (y :: ys)))
termination_by xs ys => (xs.length, ys.length)

/-- Embeds `fuzzyMatch(str1, str2)`: similarity `1 - distance/maxLength ≥
threshold`; with two empty strings the JS division is `0/0 = NaN` and
the comparison is false. -/
def fuzzyMatch (cfg : AFConfig) (str1 str2 : String) : Bool :=
  let distance := levenshteinDistance str1.toLower.data str2.toLower.data
  let maxLength := max str1.length str2.length
  if maxLength = 0 then false
  else (1 - (distance : Rat) / (maxLength : Rat)) ≥ cfg.fuzzyThreshold

/-- Embeds `normalizeValue(value)`: null-ish values pass through; strings try
date parsing, then numeric parsing, per the config flags. -/
def normalizeValue (env : JsEnv) (cfg : AFConfig) (value : Value) : Value :=
  if value.looseNull then value
  else
    match value with
    | .vStr s =>
      match (if cfg.dateRangeParsing then env.dateParse s else none) with
      | some t => .vDate t
      | none =>
        match (if cfg.numericalRangeParsing then strToNumber s else none) with
        | some n => .vNum n
        | none => .vStr s
    | v => v

/-- Embeds `compareNumerically(a, b)`: `Date`s by timestamp, numbers by
difference, otherwise `String(a).localeCompare(String(b))`. -/
def compareNumerically (env : JsEnv) (a b : Value) : Int :=
  match a, b with
  | .vDate t1, .vDate t2 => t1 - t2
  | .vNum x, .vNum y => x - y
  | a', b' => env.localeCompare (jsToString env a') (jsToString env b')

/-- Embeds `compareValues(fieldValue, filterValue, operator)`: normalize both
operands, then dispatch; its own `default` is `false`. -/
def compareValues (env : JsEnv) (cfg : AFConfig) (fieldValue filterValue : Value)
    (operator : String) : Bool :=
  let field := normalizeValue env cfg fieldValue
  let filter := normalizeValue env cfg filterValue
  if operator = "equals" then
    match cfg.fuzzyMatching, field, filter with
    | true, .vStr a, .vStr b => fuzzyMatch cfg a b
    | _, f1, f2 => jsStrictEq f1 f2
  else if operator = "contains" then
    match field, filter with
    | .vStr a, .vStr b =>
      (if cfg.caseSensitive then a else a.toLower).containsSubstr
        (if cfg.caseSensitive then b else b.toLower)
    | _, _ => false
  else if operator = "startsWith" then
    match field, filter with
    | .vStr a, .vStr b =>
      (if cfg.caseSensitive then a else a.toLower).startsWith
        (if cfg.caseSensitive then b else b.toLower)
    | _, _ => false
  else if operator = "endsWith" then
    match field, filter with
    | .vStr a, .vStr b =>
      (if cfg.caseSensitive then a else a.toLower).endsWith
        (if cfg.caseSensitive then b else b.toLower)
    | _, _ => false
  else if operator = "greaterThan" then compareNumerically env field filter > 0
  else if operator = "greaterThanOrEqual" then compareNumerically env field filter ≥ 0
  else if operator = "lessThan" then compareNumerically env field filter < 0
  else if operator = "lessThanOrEqual" then compareNumerically env field filter ≤ 0
  else false

/-- Embeds `AdvancedFilterManager.evaluateFilter(row, filter)`: the null-value
early returns, then the operator switch whose `default` is `false`. -/
def advEvaluateFilter (env : JsEnv) (cfg : AFConfig) (row : Row)
    (filter : TableFilter) : Bool :=
  let fieldValue := getFieldValue row filter.column
  let filterValue := filter.value
  if fieldValue.looseNull then
    filter.operator = "isNull" ||
      (filter.operator = "equals" && filterValue.looseNull)
  else if filterValue.looseNull ∧ filter.operator ≠ "isNull" ∧
      filter.operator ≠ "isNotNull" then false
  else if filter.operator = "equals" then
    compareValues env cfg fieldValue filterValue "equals"
  else if filter.operator = "notEquals" then
    ¬ compareValues env cfg fieldValue filterValue "equals"
  else if filter.operator = "contains" then
    compareValues env cfg fieldValue filterValue "contains"
  else if filter.operator = "notContains" then
    ¬ compareValues env cfg fieldValue filterValue "contains"
  else if filter.operator = "startsWith" then
    compareValues env cfg fieldValue filterValue "startsWith"
  else if filter.operator = "endsWith" then
    compareValues env cfg fieldValue filterValue "endsWith"
  else if filter.operator = "greaterThan" then
    compareValues env cfg fieldValue filterValue "greaterThan"
  else if filter.operator = "greaterThanOrEqual" then
    compareValues env cfg fieldValue filterValue "greaterThanOrEqual"
  else if filter.operator = "lessThan" then
    compareValues env cfg fieldValue filterValue "lessThan"
  else if filter.operator = "lessThanOrEqual" then
    compareValues env cfg fieldValue filterValue "lessThanOrEqual"
  else if filter.operator = "in" then
    match filterValue with
    | .vArr xs => xs.any (fun val => compareValues env cfg fieldValue val "equals")
    | _ => false
  else if filter.operator = "notIn" then
    match filterValue with
    | .vArr xs => ¬ xs.any (fun val => compareValues env cfg fieldValue val "equals")
    | _ => false
  else if filter.operator = "between" then
    match filterValue with
    | .vArr [lo, hi] =>
      compareValues env cfg fieldValue lo "greaterThanOrEqual" &&
        compareValues env cfg fieldValue hi "lessThanOrEqual"
    | _ => false
  else if filter.operator = "isNull" then fieldValue.looseNull
  else if filter.operator = "isNotNull" then ¬ fieldValue.looseNull
  else if filter.operator = "isEmpty" then
    jsStrictEq fieldValue (.vStr "") || fieldValue.looseNull
  else if filter.operator = "isNotEmpty" then
    ¬ jsStrictEq fieldValue (.vStr "") && ¬ fieldValue.looseNull
  else if filter.operator = "regex" then
    match cfg.regexSupport, filterValue with
    | true, .vStr pat =>
      match env.regexTest pat (if cfg.caseSensitive then "g" else "gi")
          (jsToString env fieldValue) with
      | some b => b
      | none => false
    | _, _ => false
  else false

/-! ## Helper lemmas -/

/-- Helper: `findIdx?` misses when no element satisfies the predicate. -/
theorem findIdxQ_eq_none {α : Type _} (p : α → Bool) :
    ∀ (l : List α), (∀ a ∈ l, p a = false) → l.findIdx? p = none := by
  intro l
  induction l with
  | nil => intro _; rfl
  | cons x xs ih =>
    intro h
    have hx := h x (List.mem_cons_self x xs)
    simp [List.findIdx?_cons, hx]
    have : ∀ a ∈ xs, p a = false := fun a ha => h a (List.mem_cons_of_mem x ha)
    simpa [Option.map_eq_none] using ih this

/-- A hit of `findIdx?` points at an element satisfying the predicate. -/
theorem findIdxQ_some_get {α : Type _} (p : α → Bool) :
    ∀ (l : List α) (i : Nat), l.findIdx? p = some i →
      ∃ a, l.get? i = some a ∧ p a = true := by
  intro l
  induction l with
  | nil => intro i h; simp [List.findIdx?] at h
  | cons x xs ih =>
    intro i h
    by_cases hx : p x = true
    · simp [List.findIdx?_cons, hx] at h
      subst h
      exact ⟨x, rfl, hx⟩
    · simp [List.findIdx?_cons, hx] at h
      obtain ⟨j, hj, hji⟩ := h
      obtain ⟨a, ha, hpa⟩ := ih j hj
      exact ⟨a, by simpa [← hji] using ha, hpa⟩

/-- The `create`-catch fold over a snapshot `l`, at the level of the
data list: it removes exactly the rows whose id occurs among the
`temp_`-prefixed ids of `l`. -/
theorem createCatch_foldl (l : List Row) :
    ∀ (d : List Row),
      l.foldl
          (fun acc row =>
            if row.id.startsWith "temp_" then
              acc.filter (fun r => r.id ≠ row.id)
            else acc) d
        = d.filter (fun r =>
            ¬ l.any (fun row => row.id.startsWith "temp_" && r.id = row.id)) := by
  induction l with
  | nil =>
    intro d
    simp
  | cons row l ih =>
    intro d
    by_cases hrow : row.id.startsWith "temp_"
    · rw [List.foldl_cons, if_pos hrow, ih, List.filter_filter]
      apply List.filter_congr
      intro r _
      by_cases h1 : r.id = row.id <;> simp [h1, hrow]
    · rw [List.foldl_cons, if_neg hrow, ih]
      apply List.filter_congr
      intro r _
      simp [hrow]

/-- Lifting `createCatch_foldl` to the state: the fold only ever touches
the `data` field. -/
theorem createCatch_fold_state (l : List Row) :
    ∀ (s : TableState),
      l.foldl
          (fun st row =>
            if row.id.startsWith "temp_" then st.removeRow row.id else st) s
        = { s with data :=
              l.foldl (fun acc row =>
                  if row.id.startsWith "temp_" then
                    acc.filter (fun r => r.id ≠ row.id)
                  else acc) s.data } := by
  induction l with
  | nil => intro s; rfl
  | cons row l ih =>
    intro s
    by_cases hrow : row.id.startsWith "temp_"
    · rw [List.foldl_cons, List.foldl_cons, if_pos hrow, if_pos hrow, ih]
      rfl
    · rw [List.foldl_cons, List.foldl_cons, if_neg hrow, if_neg hrow, ih]

/-! ## Claims -/

/-- C10: the catch branch of `create` with the `optimistic` option on
removes from the state exactly the rows whose id starts with `"temp_"`
(including temporary rows added by other concurrent optimistic creates
still awaiting confirmation), leaving every other row and every other
state field untouched; with the option off it removes nothing. -/
theorem create_catch_removes_temp_rows (optimistic : Bool) (s : TableState) :
    createCatchCleanup optimistic s =
      if optimistic then
        { s with data := s.data.filter (fun row => ¬ row.id.startsWith "temp_") }
      else s := by
  cases optimistic with
  | false => rfl
  | true =>
    have hf : s.data.filter (fun r =>
          ¬ s.data.any (fun row => row.id.startsWith "temp_" && r.id = row.id))
        = s.data.filter (fun row => ¬ row.id.startsWith "temp_") := by
      apply List.filter_congr
      intro r hr
      simp only [decide_eq_decide, not_iff_not, List.any_eq_true,
        Bool.and_eq_true, decide_eq_true_eq]
      constructor
      · rintro ⟨row, _, hstart, hid⟩
        rw [hid]
        exact hstart
      · intro hstart
        exact ⟨r, hr, hstart, rfl⟩
    simp only [createCatchCleanup, if_true]
    rw [createCatch_fold_state s.data s, createCatch_foldl s.data s.data, hf]

/-- C1 (code bug): with the `optimistic` option on, a failed
`update(id, data)` leaves the speculative merge in place — the catch
branch never restores `originalRow` — so the state after the error is
re-thrown differs from the state before the optimistic apply.  Evaluated
at the failing input: one row `{id:"1", a:1}`, `update("1", {a:2})`
with a rejecting adapter. -/
theorem update_error_leaves_optimistic_state :
    (orchestratorUpdate true
        { TableState.mk0 none with data := [⟨"1", [("a", .vNum 1)]⟩] }
        "1" ⟨none, [("a", .vNum 2)]⟩ (.error "network")).2.data
        = [⟨"1", [("a", .vNum 2)]⟩] ∧
    (orchestratorUpdate true
        { TableState.mk0 none with data := [⟨"1", [("a", .vNum 1)]⟩] }
        "1" ⟨none, [("a", .vNum 2)]⟩ (.error "network")).2
      ≠ { TableState.mk0 none with data := [⟨"1", [("a", .vNum 1)]⟩] } := by
  constructor
  · rfl
  · decide

/-- C6: `addFilter(f)` leaves the filter list containing `f`, no other
filter on `f`'s column (a pre-existing one is replaced), all filters on
other columns, nothing not previously there, and resets `currentPage`
to 0. -/
theorem addFilter_single_filter_per_column (s : TableState) (f : TableFilter) :
    f ∈ (s.addFilter f).filters ∧
    (∀ g ∈ (s.addFilter f).filters, g.column = f.column → g = f) ∧
    (∀ g ∈ s.filters, g.column ≠ f.column → g ∈ (s.addFilter f).filters) ∧
    (∀ g ∈ (s.addFilter f).filters, g = f ∨ g ∈ s.filters) ∧
    (s.addFilter f).currentPage = 0 := by
  refine ⟨?_, ?_, ?_, ?_, rfl⟩
  · simp [TableState.addFilter]
  · intro g hg hcol
    simp only [TableState.addFilter, List.mem_append, List.mem_filter,
      List.mem_singleton] at hg
    rcases hg with ⟨_, hne⟩ | he
    · simp [hcol] at hne
    · exact he
  · intro g hg hcol
    simp only [TableState.addFilter, List.mem_append, List.mem_filter]
    exact Or.inl ⟨hg, by simpa using hcol⟩
  · intro g hg
    simp only [TableState.addFilter, List.mem_append, List.mem_filter,
      List.mem_singleton] at hg
    rcases hg with ⟨hmem, _⟩ | he
    · exact Or.inr hmem
    · exact Or.inl he

/-- C7 (frame property): none of the filter, sort, or pagination
operations changes the selection set; only the selection operations do.
Each conjunct states that the corresponding operation returns a state
with the same `selectedRows`. -/
theorem selection_independent_of_filter_sort_page (env : JsEnv)
    (s : TableState) (f : TableFilter) (i : Nat) (fs : List TableFilter)
    (srt : TableSort) (c d : String) (ss : List TableSort) (p : Int) (k : Int) :
    (s.addFilter f).selectedRows = s.selectedRows ∧
    (s.removeFilter i).selectedRows = s.selectedRows ∧
    (s.updateFilter i f).selectedRows = s.selectedRows ∧
    s.clearFilters.selectedRows = s.selectedRows ∧
    (s.setFilters fs).selectedRows = s.selectedRows ∧
    (s.addSort srt).selectedRows = s.selectedRows ∧
    (s.removeSort c).selectedRows = s.selectedRows ∧
    (s.updateSort c d).selectedRows = s.selectedRows ∧
    s.clearSorts.selectedRows = s.selectedRows ∧
    (s.setSorts ss).selectedRows = s.selectedRows ∧
    (s.setPage env p).selectedRows = s.selectedRows ∧
    (s.setPageSize k).selectedRows = s.selectedRows ∧
    (s.nextPage env).selectedRows = s.selectedRows ∧
    s.previousPage.selectedRows = s.selectedRows ∧
    s.goToFirstPage.selectedRows = s.selectedRows ∧
    (s.goToLastPage env).selectedRows = s.selectedRows := by
  refine ⟨rfl, rfl, ?_, rfl, rfl, rfl, rfl, ?_, rfl, rfl, ?_, ?_, ?_, ?_, rfl, rfl⟩
  · unfold TableState.updateFilter; split <;> rfl
  · unfold TableState.updateSort; split <;> rfl
  · unfold TableState.setPage; split <;> rfl
  · unfold TableState.setPageSize; split <;> rfl
  · unfold TableState.nextPage; split <;> rfl
  · unfold TableState.previousPage; split <;> rfl

/-- C8: `setPage` with an out-of-range page, `updateRow` with an absent
id, and `removeRow` with an absent id are silent no-ops (the state is
unchanged and, being total functions, they throw nothing); `setPage`
with an in-range page changes only `currentPage`; `updateRow` with a
present id replaces the first matched row by the spread-merge of the
partial into it. -/
theorem silent_noop_contract (env : JsEnv) (s : TableState) (id : String)
    (updates : RowPatch) (page : Int) :
    (¬ (0 ≤ page ∧ page < (s.totalPages env : Int)) → s.setPage env page = s) ∧
    ((∀ r ∈ s.data, r.id ≠ id) → s.updateRow id updates = s) ∧
    ((∀ r ∈ s.data, r.id ≠ id) → s.removeRow id = s) ∧
    (0 ≤ page → page < (s.totalPages env : Int) →
      s.setPage env page = { s with currentPage := page.toNat }) ∧
    (∀ i, s.data.findIdx? (fun row => row.id = id) = some i →
      ∃ r, s.data.get? i = some r ∧
        s.updateRow id updates = { s with data := s.data.set i (mergeRow r updates) }) := by
  refine ⟨?_, ?_, ?_, ?_, ?_⟩
  · intro h
    unfold TableState.setPage
    rw [if_neg h]
  · intro h
    unfold TableState.updateRow
    rw [findIdxQ_eq_none _ s.data (fun a ha => by simp [h a ha])]
  · intro h
    unfold TableState.removeRow
    have hf : s.data.filter (fun row => row.id ≠ id) = s.data :=
      List.filter_eq_self.mpr (fun a ha => by simp [h a ha])
    rw [hf]
  · intro h1 h2
    unfold TableState.setPage
    rw [if_pos ⟨h1, h2⟩]
  · intro i hfind
    obtain ⟨r, hget, _⟩ := findIdxQ_some_get _ s.data i hfind
    refine ⟨r, hget, ?_⟩
    have hgetD : s.data.getD i ⟨"", []⟩ = r := by
      rw [List.getD_eq_getElem?_getD, ← List.get?_eq_getElem?, hget]
      rfl
    simp only [TableState.updateRow, hfind, hgetD]

/-- Witness for C8 at a one-row state: page 5 is out of range
(`totalPages = 1`), id `"zz"` is absent, page 0 is in range, and id
`"1"` is present at index 0. -/
theorem silent_noop_contract_witness :
    ({ TableState.mk0 none with
        data := [⟨"1", [("a", Value.vNum 1)]⟩] } : TableState).setPage env0 5
      = { TableState.mk0 none with data := [⟨"1", [("a", Value.vNum 1)]⟩] } ∧
    ({ TableState.mk0 none with
        data := [⟨"1", [("a", Value.vNum 1)]⟩] } : TableState).updateRow "zz" ⟨none, []⟩
      = { TableState.mk0 none with data := [⟨"1", [("a", Value.vNum 1)]⟩] } ∧
    ({ TableState.mk0 none with
        data := [⟨"1", [("a", Value.vNum 1)]⟩] } : TableState).removeRow "zz"
      = { TableState.mk0 none with data := [⟨"1", [("a", Value.vNum 1)]⟩] } ∧
    ({ TableState.mk0 none with
        data := [⟨"1", [("a", Value.vNum 1)]⟩] } : TableState).setPage env0 0
      = { TableState.mk0 none with
            data := [⟨"1", [("a", Value.vNum 1)]⟩], currentPage := 0 } ∧
    (∃ r, ([⟨"1", [("a", Value.vNum 1)]⟩] : List Row).get? 0 = some r ∧
      ({ TableState.mk0 none with
          data := [⟨"1", [("a", Value.vNum 1)]⟩] } : TableState).updateRow "1"
            ⟨none, [("b", Value.vNum 2)]⟩
        = { TableState.mk0 none with
              data := ([⟨"1", [("a", Value.vNum 1)]⟩] : List Row).set 0
                (mergeRow r ⟨none, [("b", Value.vNum 2)]⟩) }) :=
  ⟨(silent_noop_contract env0
      { TableState.mk0 none with data := [⟨"1", [("a", Value.vNum 1)]⟩] }
      "zz" ⟨none, []⟩ 5).1 (by decide),
   (silent_noop_contract env0
      { TableState.mk0 none with data := [⟨"1", [("a", Value.vNum 1)]⟩] }
      "zz" ⟨none, []⟩ 5).2.1 (by decide),
   (silent_noop_contract env0
      { TableState.mk0 none with data := [⟨"1", [("a", Value.vNum 1)]⟩] }
      "zz" ⟨none, []⟩ 5).2.2.1 (by decide),
   (silent_noop_contract env0
      { TableState.mk0 none with data := [⟨"1", [("a", Value.vNum 1)]⟩] }
      "zz" ⟨none, []⟩ 0).2.2.2.1 (by decide) (by decide),
   (silent_noop_contract env0
      { TableState.mk0 none with data := [⟨"1", [("a", Value.vNum 1)]⟩] }
      "1" ⟨none, [("b", Value.vNum 2)]⟩ 0).2.2.2.2 0 (by decide)⟩

/-- C3 counterexample: `pageSize = 1`, rows `"1","2"`, `setPage 1`, then
`removeRow "2"`.  Afterwards `currentPage = 1` while `totalPages = 1`,
so `currentPage` is outside `[0, totalPages-1]` and no operation clamped
it: data-shrinking operations never touch `currentPage`. -/
theorem currentPage_escapes_range_after_removeRow :
    ((((TableState.mk0 (some 1)).setData [⟨"1", []⟩, ⟨"2", []⟩]).setPage env0 1).removeRow
        "2").currentPage = 1 ∧
    ((((TableState.mk0 (some 1)).setData [⟨"1", []⟩, ⟨"2", []⟩]).setPage env0 1).removeRow
        "2").totalPages env0 = 1 ∧
    ¬ ((((TableState.mk0 (some 1)).setData [⟨"1", []⟩, ⟨"2", []⟩]).setPage env0 1).removeRow
          "2").currentPage
        < ((((TableState.mk0 (some 1)).setData [⟨"1", []⟩, ⟨"2", []⟩]).setPage env0 1).removeRow
          "2").totalPages env0 := by
  decide

/-- The pagination-cursor invariant: `currentPage` lies in
`[0, totalPages-1]` when there is at least one page, and is `0` when the
filtered dataset is empty — i.e. `currentPage < max totalPages 1`. -/
def pageInRange (env : JsEnv) (s : TableState) : Prop :=
  s.currentPage < max (s.totalPages env) 1

instance (env : JsEnv) (s : TableState) : Decidable (pageInRange env s) := by
  unfold pageInRange
  infer_instance

/-- C3 amended: every pagination and filter operation preserves the
cursor invariant (`setPage` only moves inside the range, `setPageSize`
and the filter operations reset to page 0, `nextPage`/`previousPage` are
guarded, `goToLastPage` clamps) — but the data-shrinking operations
(`removeRow`, `replaceData`, `setData`) do not clamp `currentPage`, so
the invariant can be violated by them (see the counterexample). -/
theorem pageInRange_preserved_by_page_filter_ops (env : JsEnv) (s : TableState)
    (f : TableFilter) (i : Nat) (fs : List TableFilter) (p k : Int)
    (h : pageInRange env s) :
    pageInRange env (s.setPage env p) ∧
    pageInRange env (s.setPageSize k) ∧
    pageInRange env (s.nextPage env) ∧
    pageInRange env s.previousPage ∧
    pageInRange env s.goToFirstPage ∧
    pageInRange env (s.goToLastPage env) ∧
    pageInRange env (s.addFilter f) ∧
    pageInRange env (s.removeFilter i) ∧
    pageInRange env (s.updateFilter i f) ∧
    pageInRange env s.clearFilters ∧
    pageInRange env (s.setFilters fs) := by
  have hTP : ∀ x : Nat,
      TableState.totalPages env { s with currentPage := x } = s.totalPages env :=
    fun _ => rfl
  unfold pageInRange at h
  refine ⟨?_, ?_, ?_, ?_, ?_, ?_, ?_, ?_, ?_, ?_, ?_⟩
  · unfold TableState.setPage
    split
    · rename_i hcond
      simp only [pageInRange, hTP]
      omega
    · exact h
  · unfold TableState.setPageSize
    split
    · exact lt_max_of_lt_right Nat.one_pos
    · exact h
  · unfold TableState.nextPage
    split
    · rename_i hcond
      unfold TableState.hasNextPage at hcond
      simp only [decide_eq_true_eq] at hcond
      simp only [pageInRange, hTP]
      omega
    · exact h
  · unfold TableState.previousPage
    split
    · simp only [pageInRange, hTP]
      omega
    · exact h
  · exact lt_max_of_lt_right Nat.one_pos
  · simp only [pageInRange, TableState.goToLastPage, hTP]
    omega
  · exact lt_max_of_lt_right Nat.one_pos
  · exact lt_max_of_lt_right Nat.one_pos
  · unfold TableState.updateFilter
    split
    · exact lt_max_of_lt_right Nat.one_pos
    · exact h
  · exact lt_max_of_lt_right Nat.one_pos
  · exact lt_max_of_lt_right Nat.one_pos

/-- Witness for the amended C3 at the freshly constructed (in-range)
state. -/
theorem pageInRange_preserved_witness :
    pageInRange env0 (TableState.mk0 none) ∧
    (pageInRange env0 ((TableState.mk0 none).setPage env0 0) ∧
     pageInRange env0 ((TableState.mk0 none).setPageSize 5) ∧
     pageInRange env0 ((TableState.mk0 none).nextPage env0) ∧
     pageInRange env0 (TableState.mk0 none).previousPage ∧
     pageInRange env0 (TableState.mk0 none).goToFirstPage ∧
     pageInRange env0 ((TableState.mk0 none).goToLastPage env0) ∧
     pageInRange env0 ((TableState.mk0 none).addFilter ⟨"a", "equals", .vNull⟩) ∧
     pageInRange env0 ((TableState.mk0 none).removeFilter 0) ∧
     pageInRange env0 ((TableState.mk0 none).updateFilter 0 ⟨"a", "equals", .vNull⟩) ∧
     pageInRange env0 (TableState.mk0 none).clearFilters ∧
     pageInRange env0 ((TableState.mk0 none).setFilters [])) :=
  ⟨by decide,
   pageInRange_preserved_by_page_filter_ops env0 (TableState.mk0 none)
     ⟨"a", "equals", .vNull⟩ 0 [] 0 5 (by decide)⟩

/-- Concatenating the `k`-sized chunks of the first `n` pages recovers
the first `n*k` elements. -/
theorem join_chunks {α : Type _} (l : List α) (k : Nat) :
    ∀ n : Nat, ((List.range n).map (fun p => (l.drop (p * k)).take k)).flatten
      = l.take (n * k) := by
  intro n
  induction n with
  | zero => simp
  | succ m ih =>
    rw [List.range_succ, List.map_append, List.flatten_append]
    simp only [List.map_cons, List.map_nil, List.flatten_cons, List.flatten_nil,
      List.append_nil]
    rw [ih, Nat.succ_mul, List.take_add]

/-- Helper: `a ≤ ⌈a/k⌉ * k`. -/
theorem le_ceilDivNat_mul (a k : Nat) (hk : 0 < k) :
    a ≤ TableState.ceilDivNat a k * k := by
  unfold TableState.ceilDivNat
  have hd := Nat.div_add_mod (a + k - 1) k
  have hm : (a + k - 1) % k < k := Nat.mod_lt _ hk
  rw [Nat.mul_comm]
  revert hd hm
  generalize (a + k - 1) % k = r
  generalize k * ((a + k - 1) / k) = M
  intro hd hm
  omega

/-- Every page before the last is full: `p+1 < ⌈a/k⌉ → (p+1)*k ≤ a`. -/
theorem full_page_mul_le (a k p : Nat) (hk : 0 < k)
    (hp : p + 1 < TableState.ceilDivNat a k) : (p + 1) * k ≤ a := by
  unfold TableState.ceilDivNat at hp
  have hd := Nat.div_add_mod (a + k - 1) k
  have hm : (a + k - 1) % k < k := Nat.mod_lt _ hk
  have h1 : k * (p + 2) ≤ k * ((a + k - 1) / k) :=
    Nat.mul_le_mul_left k hp
  have h2 : k * (p + 2) = (p + 1) * k + k := by ring
  revert hd hm h1 h2
  generalize (a + k - 1) % k = r
  generalize k * ((a + k - 1) / k) = M
  generalize k * (p + 2) = A
  generalize (p + 1) * k = B
  intro hd hm h1 h2
  omega

/-- The binary-search loop stays within its bracket. -/
theorem findStartLoop_bounds (cache : List (Int × Int)) (rh sc : Int)
    (left right : Int) (h : left ≤ right) :
    left ≤ findStartLoop cache rh sc left right ∧
      findStartLoop cache rh sc left right ≤ right := by
  unfold findStartLoop
  split
  · rename_i hlt
    have hq := Int.fdiv_add_fmod (left + right) 2
    have hm := Int.fmod_eq_emod (left + right) (by norm_num : (0:Int) ≤ 2)
    have hm1 := Int.emod_nonneg (left + right) (by norm_num : (2:Int) ≠ 0)
    have hm2 := Int.emod_lt_of_pos (left + right) (by norm_num : (0:Int) < 2)
    dsimp only
    split
    · have ih := findStartLoop_bounds cache rh sc
        (Int.fdiv (left + right) 2 + 1) right (by omega)
      omega
    · have ih := findStartLoop_bounds cache rh sc
        left (Int.fdiv (left + right) 2) (by omega)
      omega
  · omega
termination_by (right - left).toNat
decreasing_by
  all_goals
    have _hq := Int.fdiv_add_fmod (left + right) 2
    have _hm := Int.fmod_eq_emod (left + right) (by norm_num : (0:Int) ≤ 2)
    have _hm1 := Int.emod_nonneg (left + right) (by norm_num : (2:Int) ≠ 0)
    have _hm2 := Int.emod_lt_of_pos (left + right) (by norm_num : (0:Int) < 2)
    omega

/-- C9 counterexample: the default fixed-height manager initialized with
10 rows, after `handleScroll(10000)` (a position far beyond the
content).  `renderedItems` is empty while `endIndex - startIndex` is
negative, and the offsets no longer tile `totalHeight`: both equalities
of the claimed invariant fail. -/
theorem windower_invariant_fails_beyond_content :
    ¬ ((((vsHandleScroll (vsInitialize (vsNew vsDefaultConfig)
            [⟨"1", []⟩, ⟨"2", []⟩, ⟨"3", []⟩, ⟨"4", []⟩, ⟨"5", []⟩,
             ⟨"6", []⟩, ⟨"7", []⟩, ⟨"8", []⟩, ⟨"9", []⟩, ⟨"10", []⟩])
            10000).state.renderedItems.length : Int)
        = (vsHandleScroll (vsInitialize (vsNew vsDefaultConfig)
            [⟨"1", []⟩, ⟨"2", []⟩, ⟨"3", []⟩, ⟨"4", []⟩, ⟨"5", []⟩,
             ⟨"6", []⟩, ⟨"7", []⟩, ⟨"8", []⟩, ⟨"9", []⟩, ⟨"10", []⟩])
            10000).state.endIndex
          - (vsHandleScroll (vsInitialize (vsNew vsDefaultConfig)
              [⟨"1", []⟩, ⟨"2", []⟩, ⟨"3", []⟩, ⟨"4", []⟩, ⟨"5", []⟩,
               ⟨"6", []⟩, ⟨"7", []⟩, ⟨"8", []⟩, ⟨"9", []⟩, ⟨"10", []⟩])
              10000).state.startIndex) ∧
      ((vsHandleScroll (vsInitialize (vsNew vsDefaultConfig)
            [⟨"1", []⟩, ⟨"2", []⟩, ⟨"3", []⟩, ⟨"4", []⟩, ⟨"5", []⟩,
             ⟨"6", []⟩, ⟨"7", []⟩, ⟨"8", []⟩, ⟨"9", []⟩, ⟨"10", []⟩])
            10000).state.offsetTop
        + ((vsHandleScroll (vsInitialize (vsNew vsDefaultConfig)
            [⟨"1", []⟩, ⟨"2", []⟩, ⟨"3", []⟩, ⟨"4", []⟩, ⟨"5", []⟩,
             ⟨"6", []⟩, ⟨"7", []⟩, ⟨"8", []⟩, ⟨"9", []⟩, ⟨"10", []⟩])
            10000).state.renderedItems.length : Int) * vsDefaultConfig.rowHeight
        + (vsHandleScroll (vsInitialize (vsNew vsDefaultConfig)
            [⟨"1", []⟩, ⟨"2", []⟩, ⟨"3", []⟩, ⟨"4", []⟩, ⟨"5", []⟩,
             ⟨"6", []⟩, ⟨"7", []⟩, ⟨"8", []⟩, ⟨"9", []⟩, ⟨"10", []⟩])
            10000).state.offsetBottom
        = (vsHandleScroll (vsInitialize (vsNew vsDefaultConfig)
            [⟨"1", []⟩, ⟨"2", []⟩, ⟨"3", []⟩, ⟨"4", []⟩, ⟨"5", []⟩,
             ⟨"6", []⟩, ⟨"7", []⟩, ⟨"8", []⟩, ⟨"9", []⟩, ⟨"10", []⟩])
            10000).state.totalHeight)) := by
  decide

/-- Length of `generateRenderedItems`. -/
theorem length_generateRenderedItems (a b : Int) :
    (generateRenderedItems a b).length = (b - a).toNat := by
  simp [generateRenderedItems]

theorem ceilDivInt_nonneg (a b : Int) (ha : 0 ≤ a) (hb : 0 < b) :
    0 ≤ ceilDivInt a b := by
  unfold ceilDivInt
  have h1 : (-a).fdiv b ≤ 0 := by
    rw [Int.fdiv_eq_ediv _ (le_of_lt hb)]
    calc (-a) / b ≤ 0 / b := Int.ediv_le_ediv hb (by omega)
      _ = 0 := Int.zero_ediv b
  omega

theorem fdiv_le_of_le_mul (a n b : Int) (hb : 0 < b) (h : a ≤ n * b) :
    a.fdiv b ≤ n := by
  rw [Int.fdiv_eq_ediv _ (le_of_lt hb)]
  calc a / b ≤ (n * b) / b := Int.ediv_le_ediv hb h
    _ = n := Int.mul_ediv_cancel _ (ne_of_gt hb)

/-- C9 amended: after the window recomputation every listed operation
ends with (`calculateDimensions` followed by `updateVisibleRange`), the
two invariants hold in fixed-height mode provided the scroll position
lies within the content (`0 ≤ scrollTop ≤ totalItems·rowHeight`) — the
counterexample shows both fail beyond it, since `handleScroll` never
clamps `scrollTop`; in dynamic-height mode the rendered-count equality
holds for any scroll position (the binary search is bracketed), while
the claim states the offset equation there only up to height-cache
accuracy. -/
theorem windower_invariant_amended (cfg : VSConfig) (st : VSState)
    (hrh : 0 < cfg.rowHeight) (hbuf : 0 ≤ cfg.buffer)
    (hos : 0 ≤ cfg.overscanCount) (hch : 0 ≤ cfg.containerHeight)
    (hti : 0 ≤ st.totalItems) :
    (cfg.dynamicHeight = false → 0 ≤ st.scrollTop →
      st.scrollTop ≤ st.totalItems * cfg.rowHeight →
      (((updateVisibleRange cfg (calculateDimensions cfg st)).renderedItems.length : Int)
          = (updateVisibleRange cfg (calculateDimensions cfg st)).endIndex
            - (updateVisibleRange cfg (calculateDimensions cfg st)).startIndex ∧
        (updateVisibleRange cfg (calculateDimensions cfg st)).offsetTop
          + ((updateVisibleRange cfg (calculateDimensions cfg st)).endIndex
              - (updateVisibleRange cfg (calculateDimensions cfg st)).startIndex)
            * cfg.rowHeight
          + (updateVisibleRange cfg (calculateDimensions cfg st)).offsetBottom
          = (updateVisibleRange cfg (calculateDimensions cfg st)).totalHeight)) ∧
    (cfg.dynamicHeight = true →
      ((updateVisibleRange cfg (calculateDimensions cfg st)).renderedItems.length : Int)
          = (updateVisibleRange cfg (calculateDimensions cfg st)).endIndex
            - (updateVisibleRange cfg (calculateDimensions cfg st)).startIndex) := by
  have hvis : 0 ≤ ceilDivInt cfg.containerHeight cfg.rowHeight :=
    ceilDivInt_nonneg _ _ hch hrh
  constructor
  · intro hdyn hst0 hst1
    have hraw0 : 0 ≤ st.scrollTop.fdiv cfg.rowHeight :=
      Int.fdiv_nonneg hst0 (le_of_lt hrh)
    have hraw1 : st.scrollTop.fdiv cfg.rowHeight ≤ st.totalItems :=
      fdiv_le_of_le_mul _ _ _ hrh hst1
    unfold updateVisibleRange calculateDimensions
    simp only [hdyn, Bool.false_eq_true, if_false]
    split
    · rename_i h0
      constructor
      · simp [generateRenderedItems]
      · simp only [h0]
        ring
    · rename_i h0
      dsimp only
      constructor
      · rw [length_generateRenderedItems]
        cases hov : cfg.overscan <;>
          simp only [hov, Bool.false_eq_true, if_false, if_true] <;>
          omega
      · split
        · ring
        · rename_i hc
          rw [not_ne_iff] at hc
          rw [hc]
          ring
  · intro hdyn
    unfold updateVisibleRange calculateDimensions
    simp only [hdyn, if_true]
    split
    · simp [generateRenderedItems]
    · rename_i h0
      dsimp only
      rw [length_generateRenderedItems]
      have hb := findStartLoop_bounds st.rowHeightCache cfg.rowHeight
        st.scrollTop 0 (st.totalItems - 1) (by omega)
      unfold findStartIndexForDynamicHeight
      cases hov : cfg.overscan <;>
        simp only [hov, Bool.false_eq_true, if_false, if_true] <;>
        omega

/-- Witness for the amended C9: the default fixed-height configuration,
10 rows, scroll position 96 (within the content). -/
theorem windower_invariant_amended_witness :
    (0 : Int) < vsDefaultConfig.rowHeight ∧
    (((updateVisibleRange vsDefaultConfig (calculateDimensions vsDefaultConfig
          { vsInitialState with totalItems := 10, scrollTop := 96 })).renderedItems.length : Int)
        = (updateVisibleRange vsDefaultConfig (calculateDimensions vsDefaultConfig
            { vsInitialState with totalItems := 10, scrollTop := 96 })).endIndex
          - (updateVisibleRange vsDefaultConfig (calculateDimensions vsDefaultConfig
              { vsInitialState with totalItems := 10, scrollTop := 96 })).startIndex ∧
      (updateVisibleRange vsDefaultConfig (calculateDimensions vsDefaultConfig
          { vsInitialState with totalItems := 10, scrollTop := 96 })).offsetTop
        + ((updateVisibleRange vsDefaultConfig (calculateDimensions vsDefaultConfig
            { vsInitialState with totalItems := 10, scrollTop := 96 })).endIndex
            - (updateVisibleRange vsDefaultConfig (calculateDimensions vsDefaultConfig
                { vsInitialState with totalItems := 10, scrollTop := 96 })).startIndex)
          * vsDefaultConfig.rowHeight
        + (updateVisibleRange vsDefaultConfig (calculateDimensions vsDefaultConfig
            { vsInitialState with totalItems := 10, scrollTop := 96 })).offsetBottom
        = (updateVisibleRange vsDefaultConfig (calculateDimensions vsDefaultConfig
            { vsInitialState with totalItems := 10, scrollTop := 96 })).totalHeight) :=
  ⟨by decide,
   (windower_invariant_amended vsDefaultConfig
      { vsInitialState with totalItems := 10, scrollTop := 96 }
      (by decide) (by decide) (by decide) (by decide) (by decide)).1
     rfl (by decide) (by decide)⟩

/-- C5 counterexample: for the unrecognized operator `"bogus"`,
`ReactiveTableState.matchesFilter` returns `true` (its `default` branch),
so the row is kept by `applyFilters` — not excluded as the claim
states. -/
theorem unknown_operator_keeps_row :
    TableState.matchesFilter env0 (.vNum 25) ⟨"age", "bogus", .vNum 1⟩ = true ∧
    TableState.applyFilters env0 [⟨"age", "bogus", .vNum 1⟩]
        [⟨"r1", [("age", .vNum 25)]⟩]
      = [⟨"r1", [("age", .vNum 25)]⟩] := by
  decide

/-- C5 amended: the two filter evaluators disagree on unrecognized
operators.  `AdvancedFilterManager.evaluateFilter` matches nothing
(`default: false`), as the claim states; but
`ReactiveTableState.matchesFilter` matches everything (`default: true`),
so such a filter excludes no row there.  Both are total (never throw). -/
theorem unknown_operator_default_behavior (env : JsEnv) (cfg : AFConfig)
    (v : Value) (row : Row) (f : TableFilter)
    (hstate : f.operator ∉ (["equals", "not_equals", "contains",
      "not_contains", "starts_with", "ends_with", "greater_than", "less_than",
      "greater_equal", "less_equal", "in", "not_in", "is_null",
      "is_not_null"] : List String))
    (hadv : f.operator ∉ (["equals", "notEquals", "contains", "notContains",
      "startsWith", "endsWith", "greaterThan", "greaterThanOrEqual",
      "lessThan", "lessThanOrEqual", "in", "notIn", "between", "isNull",
      "isNotNull", "isEmpty", "isNotEmpty", "regex"] : List String)) :
    TableState.matchesFilter env v f = true ∧
    (∀ data : List Row, TableState.applyFilters env [f] data = data) ∧
    advEvaluateFilter env cfg row f = false := by
  simp only [List.mem_cons, List.not_mem_nil, not_or, or_false] at hstate hadv
  obtain ⟨hs1, hs2, hs3, hs4, hs5, hs6, hs7, hs8, hs9, hs10, hs11, hs12,
    hs13, hs14⟩ := hstate
  obtain ⟨ha1, ha2, ha3, ha4, ha5, ha6, ha7, ha8, ha9, ha10, ha11, ha12,
    ha13, ha14, ha15, ha16, ha17, ha18⟩ := hadv
  have hm : ∀ w : Value, TableState.matchesFilter env w f = true := by
    intro w
    simp [TableState.matchesFilter, hs1, hs2, hs3, hs4, hs5, hs6, hs7, hs8,
      hs9, hs10, hs11, hs12, hs13, hs14]
  refine ⟨hm v, ?_, ?_⟩
  · intro data
    unfold TableState.applyFilters
    apply List.filter_eq_self.mpr
    intro a _
    simp [hm]
  · simp [advEvaluateFilter, ha1, ha2, ha3, ha4, ha5, ha6, ha7, ha8, ha9,
      ha10, ha11, ha12, ha13, ha14, ha15, ha16, ha17, ha18]

/-- Witness for the amended C5 at operator `"bogus"`. -/
theorem unknown_operator_default_behavior_witness :
    (("bogus" : String) ∉ (["equals", "not_equals", "contains",
      "not_contains", "starts_with", "ends_with", "greater_than", "less_than",
      "greater_equal", "less_equal", "in", "not_in", "is_null",
      "is_not_null"] : List String)) ∧
    (("bogus" : String) ∉ (["equals", "notEquals", "contains", "notContains",
      "startsWith", "endsWith", "greaterThan", "greaterThanOrEqual",
      "lessThan", "lessThanOrEqual", "in", "notIn", "between", "isNull",
      "isNotNull", "isEmpty", "isNotEmpty", "regex"] : List String)) ∧
    (TableState.matchesFilter env0 (.vNum 25) ⟨"age", "bogus", .vNum 1⟩ = true ∧
     (∀ data : List Row,
        TableState.applyFilters env0 [⟨"age", "bogus", .vNum 1⟩] data = data) ∧
     advEvaluateFilter env0 afDefaultConfig ⟨"r1", [("age", .vNum 25)]⟩
        ⟨"age", "bogus", .vNum 1⟩ = false) :=
  ⟨by decide, by decide,
   unknown_operator_default_behavior env0 afDefaultConfig (.vNum 25)
     ⟨"r1", [("age", .vNum 25)]⟩ ⟨"age", "bogus", .vNum 1⟩
     (by decide) (by decide)⟩

/-- C4: with `pageSize > 0`, the concatenation of `paginatedData` over
pages `0 .. totalPages-1` (all other inputs fixed) is exactly the
filtered-and-sorted dataset, in order — no gaps, no duplicates; every
page before the last has exactly `pageSize` rows and no page exceeds
`pageSize`. -/
theorem pagination_coverage (env : JsEnv) (s : TableState)
    (h : 0 < s.pageSize) :
    ((List.range (s.totalPages env)).map
        (fun p => TableState.paginatedData env { s with currentPage := p })).flatten
      = s.sortedData env ∧
    (∀ p, p + 1 < s.totalPages env →
      (TableState.paginatedData env { s with currentPage := p }).length
        = s.pageSize) ∧
    (∀ p, (TableState.paginatedData env { s with currentPage := p }).length
        ≤ s.pageSize) := by
  have hpag : ∀ p : Nat,
      TableState.paginatedData env { s with currentPage := p }
        = ((s.sortedData env).drop (p * s.pageSize)).take s.pageSize :=
    fun _ => rfl
  have hlen : (s.sortedData env).length = (s.filteredData env).length := by
    unfold TableState.sortedData TableState.applySorting
    split
    · rfl
    · exact List.length_mergeSort _
  refine ⟨?_, ?_, ?_⟩
  · simp only [hpag]
    rw [join_chunks (s.sortedData env) s.pageSize (s.totalPages env)]
    apply List.take_of_length_le
    rw [hlen]
    exact le_ceilDivNat_mul _ _ h
  · intro p hp
    rw [hpag p]
    have hfull : (p + 1) * s.pageSize ≤ (s.sortedData env).length := by
      rw [hlen]
      exact full_page_mul_le _ _ _ h hp
    rw [List.length_take, List.length_drop]
    have h2 : (p + 1) * s.pageSize = p * s.pageSize + s.pageSize := by ring
    revert hfull h2
    generalize (p + 1) * s.pageSize = A
    generalize p * s.pageSize = B
    intro hfull h2
    omega
  · intro p
    rw [hpag p, List.length_take]
    omega

/-- Witness for C4: three rows, `pageSize = 2` (so two pages of sizes
2 and 1). -/
theorem pagination_coverage_witness :
    0 < ({ TableState.mk0 (some 2) with
            data := [⟨"1", []⟩, ⟨"2", []⟩, ⟨"3", []⟩] } : TableState).pageSize ∧
    (((List.range (({ TableState.mk0 (some 2) with
            data := [⟨"1", []⟩, ⟨"2", []⟩, ⟨"3", []⟩] } : TableState).totalPages env0)).map
        (fun p => TableState.paginatedData env0
          { ({ TableState.mk0 (some 2) with
              data := [⟨"1", []⟩, ⟨"2", []⟩, ⟨"3", []⟩] } : TableState) with
            currentPage := p })).flatten
      = TableState.sortedData env0
          { TableState.mk0 (some 2) with
            data := [⟨"1", []⟩, ⟨"2", []⟩, ⟨"3", []⟩] } ∧
    (∀ p, p + 1 < ({ TableState.mk0 (some 2) with
            data := [⟨"1", []⟩, ⟨"2", []⟩, ⟨"3", []⟩] } : TableState).totalPages env0 →
      (TableState.paginatedData env0
        { ({ TableState.mk0 (some 2) with
            data := [⟨"1", []⟩, ⟨"2", []⟩, ⟨"3", []⟩] } : TableState) with
          currentPage := p }).length
        = ({ TableState.mk0 (some 2) with
            data := [⟨"1", []⟩, ⟨"2", []⟩, ⟨"3", []⟩] } : TableState).pageSize) ∧
    (∀ p, (TableState.paginatedData env0
        { ({ TableState.mk0 (some 2) with
            data := [⟨"1", []⟩, ⟨"2", []⟩, ⟨"3", []⟩] } : TableState) with
          currentPage := p }).length
        ≤ ({ TableState.mk0 (some 2) with
            data := [⟨"1", []⟩, ⟨"2", []⟩, ⟨"3", []⟩] } : TableState).pageSize)) :=
  ⟨by decide,
   pagination_coverage env0
     { TableState.mk0 (some 2) with data := [⟨"1", []⟩, ⟨"2", []⟩, ⟨"3", []⟩] }
     (by decide)⟩

/-- C2: for a remote `update`/`delete` event carrying row `r`, if some
pending optimistic update of mutating type targets `r`'s id, then
`handleRemoteChange` takes the resolution branch and the detected
conflict list — computed before the configured strategy is applied to
it — contains a Conflict Event for every such pending update; if no
pending update collides, the remote change is applied directly. -/
theorem handleRemoteChange_conflict_spec (strategy : String) (st : SyncSlice)
    (event : RemoteEvent) (r : Row)
    (hdata : event.data = some r)
    (hety : event.type = "update" ∨ event.type = "delete") :
    ((∃ u ∈ st.pendingUpdates,
        (u.type = "update" ∨ u.type = "delete") ∧ u.data.id = r.id) →
      handleRemoteChange strategy st event =
        .resolved (detectConflicts st.pendingUpdates event)
          (resolveConflicts strategy st (detectConflicts st.pendingUpdates event)) ∧
      (∀ u ∈ st.pendingUpdates,
        (u.type = "update" ∨ u.type = "delete") → u.data.id = r.id →
          ({ type := event.type, localData := u.data,
             remoteData := r, resolved := false } : ConflictEvent)
            ∈ detectConflicts st.pendingUpdates event)) ∧
    ((∀ u ∈ st.pendingUpdates,
        ¬ ((u.type = "update" ∨ u.type = "delete") ∧ u.data.id = r.id)) →
      handleRemoteChange strategy st event = .appliedDirectly) := by
  have hiff : ∀ u : OptimisticUpdate,
      isConflicting u event = true ↔
        ((u.type = "update" ∨ u.type = "delete") ∧ u.data.id = r.id) := by
    intro u
    unfold isConflicting
    rw [hdata]
    simp only [remoteIdString, Bool.and_eq_true, Bool.or_eq_true,
      decide_eq_true_eq]
    constructor
    · rintro ⟨⟨hid, hmut⟩, _⟩
      exact ⟨hmut, hid⟩
    · rintro ⟨hmut, hid⟩
      exact ⟨⟨hid, hmut⟩, hety⟩
  constructor
  · rintro ⟨u, hu, hmut, hid⟩
    have humem : u ∈ st.pendingUpdates.filter (fun v => isConflicting v event) :=
      List.mem_filter.mpr ⟨hu, (hiff u).mpr ⟨hmut, hid⟩⟩
    have hne : detectConflicts st.pendingUpdates event ≠ [] := by
      unfold detectConflicts
      intro hnil
      rw [List.map_eq_nil_iff] at hnil
      rw [hnil] at humem
      exact (List.not_mem_nil u) humem
    constructor
    · unfold handleRemoteChange
      rw [if_pos (List.length_pos.mpr hne)]
    · intro v hv hvmut hvid
      unfold detectConflicts
      apply List.mem_map.mpr
      refine ⟨v, List.mem_filter.mpr ⟨hv, (hiff v).mpr ⟨hvmut, hvid⟩⟩, ?_⟩
      rw [hdata]
      rfl
  · intro h
    have hfil : st.pendingUpdates.filter (fun v => isConflicting v event) = [] := by
      apply List.filter_eq_nil_iff.mpr
      intro u hu
      intro hconf
      exact h u hu ((hiff u).mp hconf)
    unfold handleRemoteChange
    have hdet : detectConflicts st.pendingUpdates event = [] := by
      unfold detectConflicts
      rw [hfil]
      rfl
    rw [hdet]
    rfl

/-- Witness for C2: event `update` on row id `"7"` colliding with one
pending optimistic `update` for the same id; the collision premise is
discharged concretely, so the resolution branch and the conflict
membership are exhibited. -/
theorem handleRemoteChange_conflict_spec_witness :
    (({ type := "update", data := some ⟨"7", [("v", Value.vNum 2)]⟩ } :
        RemoteEvent).data = some (⟨"7", [("v", Value.vNum 2)]⟩ : Row)) ∧
    (∃ u ∈ [({ type := "update", data := ⟨"7", [("v", Value.vNum 1)]⟩ } :
          OptimisticUpdate)],
        (u.type = "update" ∨ u.type = "delete") ∧
          u.data.id = (⟨"7", [("v", Value.vNum 2)]⟩ : Row).id) ∧
    (handleRemoteChange "last-write-wins"
          ⟨[{ type := "update", data := ⟨"7", [("v", Value.vNum 1)]⟩ }], []⟩
          { type := "update", data := some ⟨"7", [("v", Value.vNum 2)]⟩ } =
        .resolved
          (detectConflicts
            [{ type := "update", data := ⟨"7", [("v", Value.vNum 1)]⟩ }]
            { type := "update", data := some ⟨"7", [("v", Value.vNum 2)]⟩ })
          (resolveConflicts "last-write-wins"
            ⟨[{ type := "update", data := ⟨"7", [("v", Value.vNum 1)]⟩ }], []⟩
            (detectConflicts
              [{ type := "update", data := ⟨"7", [("v", Value.vNum 1)]⟩ }]
              { type := "update", data := some ⟨"7", [("v", Value.vNum 2)]⟩ })) ∧
      (∀ u ∈ [({ type := "update", data := ⟨"7", [("v", Value.vNum 1)]⟩ } :
          OptimisticUpdate)],
        (u.type = "update" ∨ u.type = "delete") →
          u.data.id = (⟨"7", [("v", Value.vNum 2)]⟩ : Row).id →
          ({ type := "update",
             localData := u.data,
             remoteData := ⟨"7", [("v", Value.vNum 2)]⟩,
             resolved := false } : ConflictEvent)
            ∈ detectConflicts
                [{ type := "update", data := ⟨"7", [("v", Value.vNum 1)]⟩ }]
                { type := "update", data := some ⟨"7", [("v", Value.vNum 2)]⟩ })) :=
  ⟨rfl, by decide,
   ((handleRemoteChange_conflict_spec "last-write-wins"
      ⟨[{ type := "update", data := ⟨"7", [("v", Value.vNum 1)]⟩ }], []⟩
      { type := "update", data := some ⟨"7", [("v", Value.vNum 2)]⟩ }
      ⟨"7", [("v", Value.vNum 2)]⟩ rfl (Or.inl rfl)).1 (by decide))⟩

end SRT
